import Mathlib

/-!
Verification of the proveniq-anchors event core: the canonical-payload /
signature-verification engine (`app/services/signature.py`), the anchor state
machine (`app/services/event_processor.py`), the event schemas
(`app/schemas/events.py`) and the ingestion router (`app/routers/events.py`),
shallowly embedded in Lean.

Modelling conventions:
* JSON values are the inductive `Jval`; event payload dicts are association
  lists `List (String × Jval)` (Python dict keys are unique, so theorems carry
  a `Nodup` hypothesis on the key list where it matters).
* Timestamps are modelled as integers (epoch form, one of the representations
  pydantic accepts for `datetime`); UUID columns are modelled as strings.
* Server-generated columns (`id`, `received_at`, `created_at`, `updated_at`,
  `registered_at`, `ledger_synced_at`) are not part of the model.
* The Ed25519 primitive (PyNaCl's `VerifyKey.verify`) and the ledger HTTP
  client are external libraries; they enter the model as function parameters.
-/

namespace ProveniqAnchors

/-- A JSON value, as produced by `json.loads` / consumed by `json.dumps`.
Objects are association lists in source order. -/
inductive Jval where
  | jnull : Jval
  | jbool : Bool → Jval
  | jnum : Int → Jval
  | jstr : String → Jval
  | jarr : List Jval → Jval
  | jobj : List (String × Jval) → Jval

/-- Key-ordering relation used by `json.dumps(..., sort_keys=True)`:
fields compare by their key, lexicographically on code points
(Python `str` comparison, matching Lean's `String` order). -/
def keyLe (a b : String × Jval) : Prop := a.1 ≤ b.1

instance : DecidableRel keyLe := fun a b => inferInstanceAs (Decidable (a.1 ≤ b.1))

instance : IsTotal (String × Jval) keyLe := ⟨fun a b => le_total a.1 b.1⟩

instance : IsTrans (String × Jval) keyLe := ⟨fun _ _ _ h h' => le_trans h h'⟩

/-- Strict version of `keyLe`; antisymmetric (vacuously), which is what makes
the sorted order unique once keys are distinct. -/
def keyLt (a b : String × Jval) : Prop := a.1 < b.1

instance : IsAntisymm (String × Jval) keyLt :=
  ⟨fun _ _ h h' => absurd (lt_trans h h') (lt_irrefl _)⟩

/-- Sort an object's fields by key (`sort_keys=True`). -/
def sortFields (fs : List (String × Jval)) : List (String × Jval) :=
  List.insertionSort keyLe fs

mutual
/-- Recursively sort every object's fields by key, as
`json.dumps(..., sort_keys=True)` does at each nesting level. -/
def canon : Jval → Jval
  | .jnull => .jnull
  | .jbool b => .jbool b
  | .jnum n => .jnum n
  | .jstr s => .jstr s
  | .jarr xs => .jarr (canonList xs)
  | .jobj fs => .jobj (sortFields (canonFields fs))

def canonList : List Jval → List Jval
  | [] => []
  | x :: xs => canon x :: canonList xs

def canonFields : List (String × Jval) → List (String × Jval)
  | [] => []
  | (k, v) :: fs => (k, canon v) :: canonFields fs
end

/-- JSON string escaping as performed by `json.dumps` (default `ensure_ascii`
escapes are only reached for non-ASCII / control characters). -/
def jsonEscapeChar (c : Char) : String :=
  if c = '"' then "\\\""
  else if c = '\\' then "\\\\"
  else if c = '\n' then "\\n"
  else if c = '\t' then "\\t"
  else if c = '\r' then "\\r"
  else if c.toNat < 32 ∨ 126 < c.toNat then
    "\\u" ++ (Nat.toDigits 16 c.toNat).asString
  else String.singleton c

/-- A JSON string literal: quoted, escaped. -/
def jsonQuote (s : String) : String :=
  "\"" ++ String.join (s.data.map jsonEscapeChar) ++ "\""

mutual
/-- Serialize an (already key-sorted) JSON value the way
`json.dumps(..., separators=(",", ":"))` prints it: no insignificant
whitespace. -/
def serJ : Jval → String
  | .jnull => "null"
  | .jbool true => "true"
  | .jbool false => "false"
  | .jnum n => toString n
  | .jstr s => jsonQuote s
  | .jarr xs => "[" ++ serElems xs ++ "]"
  | .jobj fs => "\x7b" ++ serObjFields fs ++ "\x7d"

def serElems : List Jval → String
  | [] => ""
  | [x] => serJ x
  | x :: y :: xs => serJ x ++ "," ++ serElems (y :: xs)

def serObjFields : List (String × Jval) → String
  | [] => ""
  | [(k, v)] => jsonQuote k ++ ":" ++ serJ v
  | (k, v) :: f :: fs => jsonQuote k ++ ":" ++ serJ v ++ "," ++ serObjFields (f :: fs)
end

/-- `SignatureService.create_signing_payload`: drop the `signature` field,
serialize the rest with keys sorted and no whitespace, UTF-8 encode.
(`signature.py` lines 26–38.) -/
def create_signing_payload (event_data : List (String × Jval)) : List UInt8 :=
  (serJ (canon (Jval.jobj (event_data.filter (fun kv => kv.1 ≠ "signature"))))).toUTF8.toList

/-! ### Event model (`app/schemas/events.py`) -/

/-- `AnchorStatus` (`app/models/anchor.py`). -/
inductive AnchorStatus where
  | ACTIVE | SEALED | BREACHED | INACTIVE
deriving DecidableEq, Repr

/-- `TriggerType` (`app/schemas/events.py`). -/
inductive TriggerType where
  | MANUAL | FORCE | TAMPER | UNKNOWN
deriving DecidableEq, Repr

/-- `EnvironmentalMetric` (`app/schemas/events.py`). -/
inductive EnvironmentalMetric where
  | SHOCK | TEMP | HUMIDITY
deriving DecidableEq, Repr

/-- `CustodyDirection` (`app/schemas/events.py`). -/
inductive CustodyDirection where
  | RELEASE | ACCEPT
deriving DecidableEq, Repr

/-- `GeoCoordinate` (`app/schemas/events.py`): lat/lon scaled by 10^7. -/
structure GeoCoordinate where
  lat_e7 : Int
  lon_e7 : Int
deriving DecidableEq, Repr

/-- `AnchorEventBase` (`app/schemas/events.py`): common fields of all five
event variants (timestamps modelled as integers). -/
structure AnchorEventBase where
  anchor_id : String
  timestamp : Int
  signature : String
  schema_version : String
deriving DecidableEq, Repr

/-- The variant-specific fields of the five event schemas, as a closed sum
discriminated by `event_type` (UUID fields modelled as strings). -/
inductive EventVariant where
  | registered (asset_id hardware_model firmware_version manufacturer_id : String)
  | sealArmed (seal_id : String) (geo : GeoCoordinate)
  | sealBroken (seal_id : String) (trigger_type : TriggerType) (geo : GeoCoordinate)
  | environmentalAlert (metric : EnvironmentalMetric) (value threshold : String)
  | custodySignal (challenge_id : String) (direction : CustodyDirection)
      (counterparty_pubkey : String)
deriving DecidableEq, Repr

/-- A validated event input (`AnchorEventCreate` union in
`app/schemas/events.py`): base fields plus the variant payload. -/
structure AnchorEventInput where
  base : AnchorEventBase
  variant : EventVariant
deriving DecidableEq, Repr

/-- The `event_type` discriminant string of a variant. -/
def EventVariant.typeStr : EventVariant → String
  | .registered .. => "ANCHOR_REGISTERED"
  | .sealArmed .. => "ANCHOR_SEAL_ARMED"
  | .sealBroken .. => "ANCHOR_SEAL_BROKEN"
  | .environmentalAlert .. => "ANCHOR_ENVIRONMENTAL_ALERT"
  | .custodySignal .. => "ANCHOR_CUSTODY_SIGNAL"

/-- Whether the variant is `ANCHOR_REGISTERED` (the only one that can create
an anchor row). -/
def EventVariant.isRegistered : EventVariant → Bool
  | .registered .. => true
  | _ => false

/-! ### Anchor record (`app/models/anchor.py`) -/

/-- The `anchors` row (`app/models/anchor.py`), restricted to the columns the
event-processing core reads or writes. -/
structure Anchor where
  anchor_id : String
  asset_id : Option String
  hardware_model : String
  firmware_version : String
  manufacturer_id : String
  public_key : String
  status : AnchorStatus
  current_seal_id : Option String
  last_event_at : Option Int
  is_revoked : Bool
  revoked_at : Option Int
  revocation_reason : Option String
deriving DecidableEq, Repr

/-! ### Anchor state machine (`EventProcessor._update_anchor_state`,
`app/services/event_processor.py` lines 125–183) -/

/-- The per-anchor state transition of `EventProcessor._update_anchor_state`:
given the anchor row currently stored under the event's hardware id (`none`
when unseen) and the validated event, produce the row after processing
(`none` when no row existed and none is created). Column defaults of new rows
(`is_revoked=False`, nullable columns `NULL`) come from `app/models/anchor.py`. -/
def updateAnchorState (anchor : Option Anchor) (e : AnchorEventInput) : Option Anchor :=
  match e.variant with
  | .registered asset hw fw mfr =>
    match anchor with
    | none =>
      some { anchor_id := e.base.anchor_id,
             asset_id := some asset,
             hardware_model := hw,
             firmware_version := fw,
             manufacturer_id := mfr,
             public_key := "",
             status := .ACTIVE,
             current_seal_id := none,
             last_event_at := some e.base.timestamp,
             is_revoked := false,
             revoked_at := none,
             revocation_reason := none }
    | some a =>
      some { a with asset_id := some asset,
                    firmware_version := fw,
                    last_event_at := some e.base.timestamp }
  | .sealArmed sid _ =>
    match anchor with
    | none => none
    | some a =>
      some { a with status := .SEALED,
                    current_seal_id := some sid,
                    last_event_at := some e.base.timestamp }
  | .sealBroken _ _ _ =>
    match anchor with
    | none => none
    | some a =>
      some { a with status := .BREACHED,
                    current_seal_id := none,
                    last_event_at := some e.base.timestamp }
  | _ =>
    match anchor with
    | none => none
    | some a => some { a with last_event_at := some e.base.timestamp }

/-! ### Signature verification (`SignatureService.verify_signature`,
`app/services/signature.py` lines 40–91) -/

/-- Value of a standard base64 alphabet character. -/
def b64CharVal (c : Char) : Option Nat :=
  if 'A' ≤ c ∧ c ≤ 'Z' then some (c.toNat - 65)
  else if 'a' ≤ c ∧ c ≤ 'z' then some (c.toNat - 97 + 26)
  else if '0' ≤ c ∧ c ≤ '9' then some (c.toNat - 48 + 52)
  else if c = '+' then some 62
  else if c = '/' then some 63
  else none

/-- Reassemble 6-bit groups into bytes (2, 3 or 4 trailing characters encode
1, 2 or 3 bytes). -/
def b64Groups : List Nat → List Nat
  | a :: b :: c :: d :: rest =>
    (a * 4 + b / 16) :: ((b % 16) * 16 + c / 4) :: ((c % 4) * 64 + d) :: b64Groups rest
  | [a, b] => [a * 4 + b / 16]
  | [a, b, c] => [a * 4 + b / 16, (b % 16) * 16 + c / 4]
  | _ => []

/-- `base64.b64decode` (default `validate=False`): characters outside the
alphabet are discarded, `=` terminates the data, and incorrect padding is an
error (`none`, standing for the raised `binascii.Error`). -/
def b64decode (s : String) : Option (List Nat) :=
  let cs := s.data.filter (fun c => (b64CharVal c).isSome || c == '=')
  let body := cs.takeWhile (fun c => c ≠ '=')
  let pad := cs.drop body.length
  if pad.all (fun c => c == '=') ∧ pad.length ≤ 2 ∧ (body.length + pad.length) % 4 = 0 then
    some (b64Groups (body.filterMap b64CharVal))
  else none

/-- Look up a string field of the payload dict (`event_data.get(k)` used as a
string); `none` for a missing key or a non-string value. -/
def jstrField (event_data : List (String × Jval)) (k : String) : Option String :=
  match event_data.find? (fun kv => kv.1 = k) with
  | some (_, .jstr s) => some s
  | _ => none

/-- `SignatureService.get_manufacturer_key`: the manufacturer-key registry is
a dict `manufacturer_id → base64 public key`, modelled as an association
list. -/
def get_manufacturer_key (registry : List (String × String)) (m : String) : Option String :=
  (registry.find? (fun kv => kv.1 = m)).map Prod.snd

/-- `SignatureService.verify_signature`. `ed` is the Ed25519 primitive
(PyNaCl `VerifyKey.verify` as a boolean: key bytes → signature bytes →
message → accepts?); PyNaCl itself raises (hence `false` here) when the key
is not exactly 32 bytes or the signature not exactly 64 bytes.
Faithful to the source, including its fail-open branch: when no public key
can be resolved (missing/empty `manufacturer_id`, key not in the registry),
the function returns `true` ("In development/testing, accept unverified
signatures"). Python truthiness of `if manufacturer_id:` makes the empty
string behave like `None`. Any decoding error is caught and yields `false`. -/
def verify_signature (ed : List Nat → List Nat → List UInt8 → Bool)
    (registry : List (String × String)) (event_data : List (String × Jval))
    (signature_b64 : String) (public_key_b64 : Option String)
    (manufacturer_id : Option String) : Bool :=
  let mid : Option String :=
    match manufacturer_id with
    | some m => some m
    | none => jstrField event_data "manufacturer_id"
  let pk : Option String :=
    match public_key_b64 with
    | some k => some k
    | none =>
      match mid with
      | some m => if m = "" then none else get_manufacturer_key registry m
      | none => none
  match pk with
  | none => true
  | some k =>
    match b64decode k, b64decode signature_b64 with
    | some kb, some sb =>
      if kb.length = 32 then
        if sb.length = 64 then ed kb sb (create_signing_payload event_data) else false
      else false
    | _, _ => false

/-! ### Stored event row (`app/models/anchor_event.py`) and pipeline
(`EventProcessor.process_event`, `app/services/event_processor.py`) -/

/-- The `anchor_events` row as written by `EventProcessor._store_event` and
`EventProcessor._sync_to_ledger` (column defaults `signature_verified=False`,
`ledger_synced=False`, `processed=False` from `app/models/anchor_event.py`). -/
structure StoredAnchorEvent where
  event_type : String
  anchor_id : String
  schema_version : String
  event_timestamp : Int
  signature : String
  signature_verified : Bool
  raw_payload : List (String × Jval)
  asset_id : Option String := none
  seal_id : Option String := none
  geo_lat_e7 : Option Int := none
  geo_lon_e7 : Option Int := none
  trigger_type : Option TriggerType := none
  metric : Option EnvironmentalMetric := none
  metric_value : Option String := none
  metric_threshold : Option String := none
  challenge_id : Option String := none
  custody_direction : Option CustodyDirection := none
  counterparty_pubkey : Option String := none
  hardware_model : Option String := none
  firmware_version : Option String := none
  manufacturer_id : Option String := none
  ledger_synced : Bool := false
  ledger_event_id : Option String := none
  processed : Bool := false
  processing_error : Option String := none

/-- `event.model_dump(mode="json")`: the payload dict of a validated event
(base fields, discriminant, variant fields; nested `geo` object). -/
def modelDump (e : AnchorEventInput) : List (String × Jval) :=
  [("anchor_id", Jval.jstr e.base.anchor_id),
   ("timestamp", Jval.jnum e.base.timestamp),
   ("signature", Jval.jstr e.base.signature),
   ("schema_version", Jval.jstr e.base.schema_version),
   ("event_type", Jval.jstr e.variant.typeStr)] ++
  (match e.variant with
   | .registered asset hw fw mfr =>
     [("asset_id", Jval.jstr asset), ("hardware_model", Jval.jstr hw),
      ("firmware_version", Jval.jstr fw), ("manufacturer_id", Jval.jstr mfr)]
   | .sealArmed sid geo =>
     [("seal_id", Jval.jstr sid),
      ("geo", Jval.jobj [("lat_e7", Jval.jnum geo.lat_e7), ("lon_e7", Jval.jnum geo.lon_e7)])]
   | .sealBroken sid trig geo =>
     [("seal_id", Jval.jstr sid),
      ("trigger_type", Jval.jstr (match trig with
        | .MANUAL => "MANUAL" | .FORCE => "FORCE" | .TAMPER => "TAMPER" | .UNKNOWN => "UNKNOWN")),
      ("geo", Jval.jobj [("lat_e7", Jval.jnum geo.lat_e7), ("lon_e7", Jval.jnum geo.lon_e7)])]
   | .environmentalAlert m v t =>
     [("metric", Jval.jstr (match m with
        | .SHOCK => "SHOCK" | .TEMP => "TEMP" | .HUMIDITY => "HUMIDITY")),
      ("value", Jval.jstr v), ("threshold", Jval.jstr t)]
   | .custodySignal cid dir cp =>
     [("challenge_id", Jval.jstr cid),
      ("direction", Jval.jstr (match dir with | .RELEASE => "RELEASE" | .ACCEPT => "ACCEPT")),
      ("counterparty_pubkey", Jval.jstr cp)])

/-- `getattr(event, "manufacturer_id", None)`: only `AnchorRegisteredEvent`
has the attribute. -/
def getattrManufacturerId (e : AnchorEventInput) : Option String :=
  match e.variant with
  | .registered _ _ _ mfr => some mfr
  | _ => none

/-- `EventProcessor._store_event`: the row built from the event (base columns
plus the variant-specific columns of the matching `isinstance` branch). -/
def store_event (e : AnchorEventInput) (event_data : List (String × Jval))
    (signature_verified : Bool) : StoredAnchorEvent :=
  let base : StoredAnchorEvent :=
    { event_type := e.variant.typeStr
      anchor_id := e.base.anchor_id
      schema_version := e.base.schema_version
      event_timestamp := e.base.timestamp
      signature := e.base.signature
      signature_verified := signature_verified
      raw_payload := event_data }
  match e.variant with
  | .registered asset hw fw mfr =>
    { base with asset_id := some asset, hardware_model := some hw,
                firmware_version := some fw, manufacturer_id := some mfr }
  | .sealArmed sid geo =>
    { base with seal_id := some sid, geo_lat_e7 := some geo.lat_e7,
                geo_lon_e7 := some geo.lon_e7 }
  | .sealBroken sid trig geo =>
    { base with seal_id := some sid, trigger_type := some trig,
                geo_lat_e7 := some geo.lat_e7, geo_lon_e7 := some geo.lon_e7 }
  | .environmentalAlert m v t =>
    { base with metric := some m, metric_value := some v, metric_threshold := some t }
  | .custodySignal cid dir cp =>
    { base with challenge_id := some cid, custody_direction := some dir,
                counterparty_pubkey := some cp }

/-- `EventProcessor._sync_to_ledger`: `lid` is the ledger client's returned
event id (`None` on transport failure, which the service swallows). Python
truthiness: an empty-string id is falsy, so sync fields stay unset; a raised
exception instead records `processing_error` and skips `processed = True`. -/
def sync_to_ledger (lid : Option String) (ev : StoredAnchorEvent) : StoredAnchorEvent :=
  let ev1 :=
    match lid with
    | some i => if i = "" then ev else { ev with ledger_synced := true, ledger_event_id := some i }
    | none => ev
  { ev1 with processed := true }

/-- The record store visible to the pipeline, plus an instrumentation counter
of how many times `SignatureService.verify_signature` has been invoked (used
to state "rejected before signature verification is attempted"). -/
structure WorldState where
  anchors : List Anchor
  events : List StoredAnchorEvent
  verifyCalls : Nat

/-- `select(Anchor).where(Anchor.anchor_id == aid)` + `scalar_one_or_none()`
(the `anchor_id` column is unique). -/
def findAnchor (anchors : List Anchor) (aid : String) : Option Anchor :=
  anchors.find? (fun a => a.anchor_id = aid)

/-- Write-back of the (mutated or newly added) anchor row. -/
def putAnchor (anchors : List Anchor) (aid : String) (a' : Anchor) : List Anchor :=
  if (anchors.find? (fun a => a.anchor_id = aid)).isSome then
    anchors.map (fun a => if a.anchor_id = aid then a' else a)
  else anchors ++ [a']

/-- `EventProcessor._update_anchor_state` lifted to the anchors table:
look up the row for the event's hardware id, apply the transition, write the
result back (a no-op when the transition leaves an absent anchor absent). -/
def updateAnchorsDb (anchors : List Anchor) (e : AnchorEventInput) : List Anchor :=
  match updateAnchorState (findAnchor anchors e.base.anchor_id) e with
  | none => anchors
  | some a' => putAnchor anchors e.base.anchor_id a'

/-- `EventProcessor.process_event`: verify the signature, store the event row
(with `signature_verified` recorded either way), update the anchor state
— unconditionally, not gated on the verification outcome — then best-effort
ledger sync. `ed` is the Ed25519 primitive and `ledgerWrite` the external
ledger client (`ledger_service.write_event`). Returns the committed world and
the stored row. -/
def process_event (ed : List Nat → List Nat → List UInt8 → Bool)
    (registry : List (String × String))
    (ledgerWrite : StoredAnchorEvent → List (String × Jval) → Option String)
    (st : WorldState) (e : AnchorEventInput) : WorldState × StoredAnchorEvent :=
  let event_data := modelDump e
  let sv := verify_signature ed registry event_data e.base.signature none
    (getattrManufacturerId e)
  let db_event := store_event e event_data sv
  let db_event := sync_to_ledger (ledgerWrite db_event event_data) db_event
  ({ anchors := updateAnchorsDb st.anchors e
     events := st.events ++ [db_event]
     verifyCalls := st.verifyCalls + 1 }, db_event)

/-! ### Structural validation and ingestion (`app/schemas/events.py` field
constraints, `parse_event` / `ingest_event` in `app/routers/events.py`) -/

/-- `data.get(k)` on the raw payload dict. -/
def lookupField (raw : List (String × Jval)) (k : String) : Option Jval :=
  (raw.find? (fun kv => kv.1 = k)).map Prod.snd

/-- A required pydantic `str` field: present and a JSON string (pydantic v2
does not coerce other JSON types to `str`). -/
def getStr (raw : List (String × Jval)) (k : String) : Option String :=
  match lookupField raw k with
  | some (.jstr s) => some s
  | _ => none

/-- A required pydantic `int` field. -/
def getInt (raw : List (String × Jval)) (k : String) : Option Int :=
  match lookupField raw k with
  | some (.jnum n) => some n
  | _ => none

def isHexDigit (c : Char) : Bool :=
  ('0' ≤ c && c ≤ '9') || ('a' ≤ c && c ≤ 'f') || ('A' ≤ c && c ≤ 'F')

/-- A pydantic `UUID` field given as a string, modelled for the canonical
hyphenated 8-4-4-4-12 hex form (the form `uuid.UUID` accepts from event
producers). -/
def isUuidString (s : String) : Bool :=
  match s.splitOn "-" with
  | [a, b, c, d, e] =>
    a.length = 8 && b.length = 4 && c.length = 4 && d.length = 4 && e.length = 12 &&
      (a ++ b ++ c ++ d ++ e).data.all isHexDigit
  | _ => false

/-- Validation of the `AnchorEventBase` fields: `anchor_id` 1–64 chars,
`timestamp` a datetime (modelled in epoch-integer form), `signature`
non-empty, `schema_version` defaulting to `"1.0.0"` when absent. -/
def parseBase (raw : List (String × Jval)) : Option AnchorEventBase := do
  let aid ← getStr raw "anchor_id"
  guard (1 ≤ aid.length ∧ aid.length ≤ 64)
  let ts ← getInt raw "timestamp"
  let sig ← getStr raw "signature"
  guard (1 ≤ sig.length)
  let sv ← match lookupField raw "schema_version" with
    | none => some "1.0.0"
    | some (.jstr s) => some s
    | some _ => none
  pure { anchor_id := aid, timestamp := ts, signature := sig, schema_version := sv }

/-- `GeoCoordinate` validation: an object with integer `lat_e7 ∈ [-9e8, 9e8]`
and `lon_e7 ∈ [-1.8e9, 1.8e9]` (boundaries inclusive). -/
def parseGeo (v : Jval) : Option GeoCoordinate :=
  match v with
  | .jobj fs => do
    let la ← getInt fs "lat_e7"
    guard (-900000000 ≤ la ∧ la ≤ 900000000)
    let lo ← getInt fs "lon_e7"
    guard (-1800000000 ≤ lo ∧ lo ≤ 1800000000)
    pure { lat_e7 := la, lon_e7 := lo }
  | _ => none

def parseTriggerType (s : String) : Option TriggerType :=
  if s = "MANUAL" then some .MANUAL
  else if s = "FORCE" then some .FORCE
  else if s = "TAMPER" then some .TAMPER
  else if s = "UNKNOWN" then some .UNKNOWN
  else none

def parseMetric (s : String) : Option EnvironmentalMetric :=
  if s = "SHOCK" then some .SHOCK
  else if s = "TEMP" then some .TEMP
  else if s = "HUMIDITY" then some .HUMIDITY
  else none

def parseDirection (s : String) : Option CustodyDirection :=
  if s = "RELEASE" then some .RELEASE
  else if s = "ACCEPT" then some .ACCEPT
  else none

/-- Variant-field validation, per the five pydantic schemas. -/
def parseVariantFields (ty : String) (raw : List (String × Jval)) : Option EventVariant :=
  if ty = "ANCHOR_REGISTERED" then do
    let asset ← getStr raw "asset_id"
    guard (isUuidString asset)
    let hw ← getStr raw "hardware_model"
    guard (1 ≤ hw.length ∧ hw.length ≤ 128)
    let fw ← getStr raw "firmware_version"
    guard (1 ≤ fw.length ∧ fw.length ≤ 32)
    let mfr ← getStr raw "manufacturer_id"
    guard (1 ≤ mfr.length ∧ mfr.length ≤ 64)
    pure (.registered asset hw fw mfr)
  else if ty = "ANCHOR_SEAL_ARMED" then do
    let sid ← getStr raw "seal_id"
    guard (1 ≤ sid.length ∧ sid.length ≤ 64)
    let gv ← lookupField raw "geo"
    let geo ← parseGeo gv
    pure (.sealArmed sid geo)
  else if ty = "ANCHOR_SEAL_BROKEN" then do
    let sid ← getStr raw "seal_id"
    guard (1 ≤ sid.length ∧ sid.length ≤ 64)
    let trs ← getStr raw "trigger_type"
    let trig ← parseTriggerType trs
    let gv ← lookupField raw "geo"
    let geo ← parseGeo gv
    pure (.sealBroken sid trig geo)
  else if ty = "ANCHOR_ENVIRONMENTAL_ALERT" then do
    let ms ← getStr raw "metric"
    let m ← parseMetric ms
    let v ← getStr raw "value"
    guard (1 ≤ v.length ∧ v.length ≤ 64)
    let t ← getStr raw "threshold"
    guard (1 ≤ t.length ∧ t.length ≤ 64)
    pure (.environmentalAlert m v t)
  else if ty = "ANCHOR_CUSTODY_SIGNAL" then do
    let cid ← getStr raw "challenge_id"
    guard (isUuidString cid)
    let ds ← getStr raw "direction"
    let dir ← parseDirection ds
    let cp ← getStr raw "counterparty_pubkey"
    guard (1 ≤ cp.length ∧ cp.length ≤ 128)
    pure (.custodySignal cid dir cp)
  else none

/-- The rejection categories of `ingest_event` (`app/routers/events.py`):
HTTP 400 for a missing or unknown `event_type` (and for `parse_event`'s own
`ValueError` branch), HTTP 422 for a pydantic `ValidationError`. -/
inductive IngestError where
  | missingEventType | unknownEventType | validationFailed
deriving DecidableEq, Repr

/-- HTTP status the router maps each rejection to. -/
def IngestError.statusCode : IngestError → Nat
  | .missingEventType => 400
  | .unknownEventType => 400
  | .validationFailed => 422

/-- `parse_event` (`app/routers/events.py` lines 24–39): dispatch on the
declared `event_type`, validate the matching schema (a pydantic failure is
`validationFailed`); any other declared type raises (`unknownEventType`). -/
def parse_event (raw : List (String × Jval)) : Except IngestError AnchorEventInput :=
  match jstrField raw "event_type" with
  | some ty =>
    if ty = "ANCHOR_REGISTERED" ∨ ty = "ANCHOR_SEAL_ARMED" ∨ ty = "ANCHOR_SEAL_BROKEN" ∨
        ty = "ANCHOR_ENVIRONMENTAL_ALERT" ∨ ty = "ANCHOR_CUSTODY_SIGNAL" then
      match parseBase raw, parseVariantFields ty raw with
      | some b, some v => .ok { base := b, variant := v }
      | _, _ => .error .validationFailed
    else .error .unknownEventType
  | none => .error .unknownEventType

/-- The router's up-front checks before `parse_event`: `event_type` must be
present, and `EventType(value)` must succeed (the value is one of the five
canonical strings; a non-string or unknown value raises `ValueError`). -/
def ingestValidate (raw : List (String × Jval)) : Except IngestError AnchorEventInput :=
  match lookupField raw "event_type" with
  | none => .error .missingEventType
  | some (.jstr s) =>
    if s = "ANCHOR_REGISTERED" ∨ s = "ANCHOR_SEAL_ARMED" ∨ s = "ANCHOR_SEAL_BROKEN" ∨
        s = "ANCHOR_ENVIRONMENTAL_ALERT" ∨ s = "ANCHOR_CUSTODY_SIGNAL" then
      parse_event raw
    else .error .unknownEventType
  | some _ => .error .unknownEventType

/-- The observable outcome of one `POST /events` request: the world after the
request, the rejection (if any), and the stored row behind the 201 response
(if any). A rejection raises `HTTPException` before `EventProcessor` runs, so
nothing is verified or persisted. -/
structure IngestOutcome where
  world : WorldState
  error : Option IngestError
  response : Option StoredAnchorEvent

/-- `ingest_event` (`app/routers/events.py` lines 42–105). -/
def ingest_event (ed : List Nat → List Nat → List UInt8 → Bool)
    (registry : List (String × String))
    (ledgerWrite : StoredAnchorEvent → List (String × Jval) → Option String)
    (st : WorldState) (raw : List (String × Jval)) : IngestOutcome :=
  match ingestValidate raw with
  | .error err => { world := st, error := some err, response := none }
  | .ok ev =>
    let r := process_event ed registry ledgerWrite st ev
    { world := r.1, error := none, response := some r.2 }

/-! ## Canonicalization lemmas -/

lemma canonFields_eq_map (l : List (String × Jval)) :
    canonFields l = l.map (fun kv => (kv.1, canon kv.2)) := by
  induction l with
  | nil => simp [canonFields]
  | cons kv t ih => rcases kv with ⟨k, v⟩; simp [canonFields, ih]

lemma keys_canonFields (l : List (String × Jval)) :
    (canonFields l).map Prod.fst = l.map Prod.fst := by
  rw [canonFields_eq_map, List.map_map]; rfl

lemma sortFields_perm (l : List (String × Jval)) : List.Perm (sortFields l) l :=
  List.perm_insertionSort keyLe l

/-- A key-sorted field list with pairwise-distinct keys is strictly sorted. -/
lemma sorted_keyLt_of_nodup_keys (l : List (String × Jval))
    (hnd : (l.map Prod.fst).Nodup) (hs : List.Sorted keyLe l) :
    List.Sorted keyLt l := by
  have hne : l.Pairwise (fun a b : String × Jval => a.1 ≠ b.1) := by
    simpa [List.Nodup, List.pairwise_map] using hnd
  exact (List.Pairwise.and hs hne).imp fun h => lt_of_le_of_ne h.1 h.2

/-- Key-sorting is insensitive to the order of a duplicate-free field list:
two permuted lists sort to the same list. -/
lemma sortFields_eq_of_perm (l₁ l₂ : List (String × Jval)) (hp : l₁.Perm l₂)
    (hnd : (l₁.map Prod.fst).Nodup) : sortFields l₁ = sortFields l₂ := by
  have hnd₁ : ((sortFields l₁).map Prod.fst).Nodup :=
    (((sortFields_perm l₁).map Prod.fst).nodup_iff).mpr hnd
  have hnd₂ : ((sortFields l₂).map Prod.fst).Nodup :=
    (((sortFields_perm l₂).map Prod.fst).nodup_iff).mpr
      (((hp.map Prod.fst).nodup_iff).mp hnd)
  have hperm : List.Perm (sortFields l₁) (sortFields l₂) :=
    (sortFields_perm l₁).trans (hp.trans (sortFields_perm l₂).symm)
  exact List.eq_of_perm_of_sorted hperm
    (sorted_keyLt_of_nodup_keys _ hnd₁ (List.sorted_insertionSort keyLe l₁))
    (sorted_keyLt_of_nodup_keys _ hnd₂ (List.sorted_insertionSort keyLe l₂))

/-- C3: for every payload map (duplicate-free field list) and every two
field-insertion orders of it, `create_signing_payload` produces identical
canonical bytes; the bytes are exactly the UTF-8 encoding of the JSON
serialization of the map without its `signature` key (keys sorted, no
insignificant whitespace), and the `signature` field is not among the
serialized fields. -/
theorem create_signing_payload_deterministic
    (l₁ l₂ : List (String × Jval)) (hp : l₁.Perm l₂)
    (hnd : (l₁.map Prod.fst).Nodup) :
    create_signing_payload l₁ = create_signing_payload l₂ ∧
    create_signing_payload l₁ =
      (serJ (canon (Jval.jobj (l₁.filter (fun kv => kv.1 ≠ "signature"))))).toUTF8.toList ∧
    ∀ kv ∈ l₁.filter (fun kv => kv.1 ≠ "signature"), kv.1 ≠ "signature" := by
  refine ⟨?_, rfl, fun kv hkv => of_decide_eq_true (List.mem_filter.mp hkv).2⟩
  have hpf : List.Perm (l₁.filter (fun kv => kv.1 ≠ "signature"))
      (l₂.filter (fun kv => kv.1 ≠ "signature")) := hp.filter _
  have hndf : ((l₁.filter (fun kv => kv.1 ≠ "signature")).map Prod.fst).Nodup :=
    List.Nodup.sublist (List.Sublist.map Prod.fst (List.filter_sublist l₁)) hnd
  have hcf : List.Perm (canonFields (l₁.filter (fun kv => kv.1 ≠ "signature")))
      (canonFields (l₂.filter (fun kv => kv.1 ≠ "signature"))) := by
    rw [canonFields_eq_map, canonFields_eq_map]; exact hpf.map _
  have hsort : sortFields (canonFields (l₁.filter (fun kv => kv.1 ≠ "signature"))) =
      sortFields (canonFields (l₂.filter (fun kv => kv.1 ≠ "signature"))) := by
    refine sortFields_eq_of_perm _ _ hcf ?_
    rw [keys_canonFields]; exact hndf
  unfold create_signing_payload
  simp only [canon, hsort]

/-- C3 witness: the determinism theorem applied to a concrete three-field
payload and a transposition of it. -/
theorem create_signing_payload_deterministic_witness :
    ([(("b" : String), Jval.jstr "2"), ("a", Jval.jnum 1), ("signature", Jval.jstr "s")].Perm
      [("a", Jval.jnum 1), ("b", Jval.jstr "2"), ("signature", Jval.jstr "s")]) ∧
    (([(("b" : String), Jval.jstr "2"), ("a", Jval.jnum 1),
        ("signature", Jval.jstr "s")].map Prod.fst).Nodup) ∧
    create_signing_payload [("b", Jval.jstr "2"), ("a", Jval.jnum 1), ("signature", Jval.jstr "s")] =
      create_signing_payload [("a", Jval.jnum 1), ("b", Jval.jstr "2"), ("signature", Jval.jstr "s")] :=
  ⟨List.Perm.swap _ _ _, by decide,
    (create_signing_payload_deterministic _ _ (List.Perm.swap _ _ _) (by decide)).1⟩

/-! ## State-machine theorems -/

/-- §3 invariant: `current_seal_id` is set iff the status is SEALED. -/
def sealInvariant (a : Anchor) : Prop :=
  a.current_seal_id.isSome ↔ a.status = AnchorStatus.SEALED

/-- The invariant lifted to an optional anchor row (absent rows satisfy it). -/
def optionSealInvariant (oa : Option Anchor) : Prop :=
  ∀ a, oa = some a → sealInvariant a

/-- Whether the variant is `ANCHOR_SEAL_ARMED`. -/
def EventVariant.isSealArmed : EventVariant → Bool
  | .sealArmed .. => true
  | _ => false

/-- A concrete SEALED anchor row used in closed instances. -/
def sealedAnchorEx : Anchor :=
  { anchor_id := "A1", asset_id := some "asset-1", hardware_model := "HW",
    firmware_version := "1.0", manufacturer_id := "M1", public_key := "",
    status := AnchorStatus.SEALED, current_seal_id := some "S-1",
    last_event_at := some 10, is_revoked := false, revoked_at := none,
    revocation_reason := none }

/-- A concrete BREACHED anchor row used in closed instances. -/
def breachedAnchorEx : Anchor :=
  { anchor_id := "A1", asset_id := none, hardware_model := "HW",
    firmware_version := "1.0", manufacturer_id := "M1", public_key := "",
    status := AnchorStatus.BREACHED, current_seal_id := none,
    last_event_at := some 10, is_revoked := false, revoked_at := none,
    revocation_reason := none }

/-- A concrete revoked ACTIVE anchor row used in closed instances. -/
def revokedAnchorEx : Anchor :=
  { anchor_id := "A1", asset_id := none, hardware_model := "HW",
    firmware_version := "1.0", manufacturer_id := "M1", public_key := "",
    status := AnchorStatus.ACTIVE, current_seal_id := none,
    last_event_at := some 10, is_revoked := true, revoked_at := some 9,
    revocation_reason := some "stolen" }

/-- Common base fields of the concrete events used in closed instances. -/
def eventBaseEx : AnchorEventBase :=
  { anchor_id := "A1", timestamp := 11, signature := "sig", schema_version := "1.0.0" }

/-- A concrete `ANCHOR_SEAL_ARMED` event used in closed instances. -/
def sealArmedEventEx : AnchorEventInput :=
  { base := eventBaseEx, variant := .sealArmed "S-2" { lat_e7 := 0, lon_e7 := 0 } }

/-- A concrete `ANCHOR_SEAL_BROKEN` event used in closed instances. -/
def sealBrokenEventEx : AnchorEventInput :=
  { base := eventBaseEx, variant := .sealBroken "S-1" .FORCE { lat_e7 := 1, lon_e7 := 2 } }

/-- A concrete `ANCHOR_ENVIRONMENTAL_ALERT` event used in closed instances. -/
def alertEventEx : AnchorEventInput :=
  { base := eventBaseEx, variant := .environmentalAlert .SHOCK "9.8" "5.0" }

/-- C5: every one of the five event variants preserves the invariant
"`current_seal_id` is set iff status is SEALED", over any prior anchor
presence, so it holds in every reachable state. -/
theorem updateAnchorState_preserves_seal_invariant
    (oa : Option Anchor) (e : AnchorEventInput) (h : optionSealInvariant oa) :
    optionSealInvariant (updateAnchorState oa e) := by
  intro a' ha'
  rcases e with ⟨b, v⟩
  cases v <;> cases oa <;>
    simp only [updateAnchorState, Option.some.injEq, reduceCtorEq] at ha' <;>
    (try cases ha') <;>
    first
    | (simp [sealInvariant]; done)
    | simpa [sealInvariant] using h _ rfl

/-- C5 witness: the invariant-preservation theorem applied to a concrete
SEALED anchor and a concrete `ANCHOR_SEAL_BROKEN` event. -/
theorem updateAnchorState_preserves_seal_invariant_witness :
    optionSealInvariant (some sealedAnchorEx) ∧
    optionSealInvariant (updateAnchorState (some sealedAnchorEx) sealBrokenEventEx) :=
  have h : optionSealInvariant (some sealedAnchorEx) := by
    intro a ha
    cases ha
    simp [sealInvariant, sealedAnchorEx]
  ⟨h, updateAnchorState_preserves_seal_invariant _ _ h⟩

/-- C4 counterexample: a subsequent `ANCHOR_SEAL_ARMED` event moves a
BREACHED anchor back to SEALED, so breach is not irreversible under the
transition function as the claim states. -/
theorem seal_armed_rearms_breached_anchor :
    breachedAnchorEx.status = AnchorStatus.BREACHED ∧
    (updateAnchorState (some breachedAnchorEx) sealArmedEventEx).map Anchor.status =
      some AnchorStatus.SEALED :=
  ⟨rfl, rfl⟩

/-- C4 amended: after any event on a BREACHED anchor the status is never
ACTIVE; it is SEALED exactly when the event is `ANCHOR_SEAL_ARMED` (which
re-arms the anchor) and stays BREACHED for every other variant. -/
theorem breached_anchor_next_status (a : Anchor) (e : AnchorEventInput)
    (h : a.status = AnchorStatus.BREACHED) :
    ∃ a', updateAnchorState (some a) e = some a' ∧
      a'.status ≠ AnchorStatus.ACTIVE ∧
      a'.status = (if e.variant.isSealArmed then AnchorStatus.SEALED
                   else AnchorStatus.BREACHED) := by
  rcases e with ⟨b, v⟩
  cases v <;>
    exact ⟨_, rfl, by simp [updateAnchorState, EventVariant.isSealArmed, h]⟩

/-- C4 amended witness: the amended theorem applied to a concrete BREACHED
anchor and a concrete `ANCHOR_ENVIRONMENTAL_ALERT` event. -/
theorem breached_anchor_next_status_witness :
    breachedAnchorEx.status = AnchorStatus.BREACHED ∧
    (∃ a', updateAnchorState (some breachedAnchorEx) alertEventEx = some a' ∧
      a'.status ≠ AnchorStatus.ACTIVE ∧
      a'.status = (if alertEventEx.variant.isSealArmed then AnchorStatus.SEALED
                   else AnchorStatus.BREACHED)) :=
  ⟨rfl, breached_anchor_next_status _ _ rfl⟩

/-- C6 counterexample: a revoked anchor is not shielded from state-changing
events — an `ANCHOR_SEAL_ARMED` event still flips its status (ACTIVE to
SEALED here) and sets its seal id, contradicting the claim that processing
leaves a revoked anchor's state-bearing fields unchanged. -/
theorem revoked_anchor_state_still_changes :
    revokedAnchorEx.is_revoked = true ∧
    (updateAnchorState (some revokedAnchorEx) sealArmedEventEx).map
      (fun a => (a.status, a.current_seal_id)) =
      some (AnchorStatus.SEALED, some "S-2") :=
  ⟨rfl, rfl⟩

/-- C6 amended: the transition function never consults the revocation flag —
a revoked anchor is processed exactly like an unrevoked one (the transition
commutes with toggling `is_revoked`), and the revocation fields themselves
(`is_revoked`, `revoked_at`, `revocation_reason`) are always preserved. -/
theorem updateAnchorState_ignores_revocation (a : Anchor) (e : AnchorEventInput) :
    (∃ a', updateAnchorState (some a) e = some a' ∧
      a'.is_revoked = a.is_revoked ∧ a'.revoked_at = a.revoked_at ∧
      a'.revocation_reason = a.revocation_reason) ∧
    ∀ b : Bool, updateAnchorState (some { a with is_revoked := b }) e =
      (updateAnchorState (some a) e).map (fun x => { x with is_revoked := b }) := by
  rcases e with ⟨bb, v⟩
  refine ⟨?_, ?_⟩
  · cases v <;> exact ⟨_, rfl, rfl, rfl, rfl⟩
  · intro b
    cases v <;> rfl

/-- C7: the transition function is total — for every anchor presence and
every one of the five event variants it computes a defined next state (absent
stays absent except for `ANCHOR_REGISTERED`, which creates the row). -/
theorem updateAnchorState_total (oa : Option Anchor) (e : AnchorEventInput) :
    ∃ next, updateAnchorState oa e = next ∧
      next.isSome = (oa.isSome || e.variant.isRegistered) := by
  refine ⟨_, rfl, ?_⟩
  rcases e with ⟨b, v⟩
  cases oa <;> cases v <;> simp [updateAnchorState, EventVariant.isRegistered]

/-- C8: an `ANCHOR_REGISTERED` event on an unseen hardware id creates an
anchor with status ACTIVE, no current seal, the asset / hardware model /
firmware / manufacturer bound from the event, and `last_event_at` set to the
event timestamp (`public_key` is left empty, set later during certification;
revocation fields take their column defaults). -/
theorem registered_creates_active_anchor (b : AnchorEventBase)
    (asset hw fw mfr : String) :
    updateAnchorState none { base := b, variant := .registered asset hw fw mfr } =
      some { anchor_id := b.anchor_id, asset_id := some asset, hardware_model := hw,
             firmware_version := fw, manufacturer_id := mfr, public_key := "",
             status := AnchorStatus.ACTIVE, current_seal_id := none,
             last_event_at := some b.timestamp, is_revoked := false,
             revoked_at := none, revocation_reason := none } := rfl

/-- C9: an `ANCHOR_SEAL_BROKEN` event on a present SEALED anchor yields
status BREACHED with `current_seal_id` cleared (and `last_event_at`
advanced). -/
theorem seal_broken_on_sealed_breaches (a : Anchor) (b : AnchorEventBase)
    (sid : String) (trig : TriggerType) (geo : GeoCoordinate)
    (_h : a.status = AnchorStatus.SEALED) :
    updateAnchorState (some a) { base := b, variant := .sealBroken sid trig geo } =
      some { a with status := AnchorStatus.BREACHED, current_seal_id := none,
                    last_event_at := some b.timestamp } := rfl

/-- C9 witness: the theorem applied to a concrete SEALED anchor. -/
theorem seal_broken_on_sealed_breaches_witness :
    sealedAnchorEx.status = AnchorStatus.SEALED ∧
    updateAnchorState (some sealedAnchorEx) sealBrokenEventEx =
      some { sealedAnchorEx with status := AnchorStatus.BREACHED,
                                 current_seal_id := none,
                                 last_event_at := some 11 } :=
  ⟨rfl, seal_broken_on_sealed_breaches _ _ _ _ _ rfl⟩

/-! ## Verification and ingestion theorems -/

/-- A 44-character base64 string decoding to a 32-byte (all-zero) Ed25519
public key, used in closed instances. -/
def zeroKeyB64 : String := "AAAAAAAAAAAAAAAAAAAAAAAAAAAAAAAAAAAAAAAAAAA="

/-- A concrete `ANCHOR_REGISTERED` event whose manufacturer is `"M1"`, used
in closed instances. -/
def registeredEventEx : AnchorEventInput :=
  { base := { anchor_id := "A1", timestamp := 100, signature := "AAAA",
              schema_version := "1.0.0" },
    variant := .registered "00000000-0000-0000-0000-000000000000" "HW-1" "1.0.0" "M1" }

/-- C1: `verify_signature` is fail-open, not fail-closed, when no public key
can be resolved: with an empty manufacturer-key registry (no entry for the
event's manufacturer id `"M1"`) it returns `true`, even when the Ed25519
primitive rejects everything — the claim requires `false` here. The
malformed-base64 and malformed-key paths do return `false`; the missing
registry entry is the branch that contradicts the claim (`signature.py`
lines 69–72, "In development/testing, accept unverified signatures"). -/
theorem verify_signature_fail_open_on_missing_registry_key :
    verify_signature (fun _ _ _ => false) []
      [("manufacturer_id", Jval.jstr "M1")] "AAAA" none none = true := rfl

/-- The empty world (no anchors, no stored events, no verification calls). -/
def emptyWorld : WorldState := { anchors := [], events := [], verifyCalls := 0 }

/-- C2: processing an event whose signature verification fails still applies
the state-machine transition. Here the registry resolves manufacturer `"M1"`
to a well-formed 32-byte key, so the malformed 3-byte signature makes
`verify_signature` return `false` (even with an Ed25519 primitive that
accepts everything); the stored row records `signature_verified = false`,
yet `_update_anchor_state` still runs: the anchor is created with status
ACTIVE and the asset bound — the transition is not gated on verification
(`process_event` calls `_update_anchor_state` unconditionally). -/
theorem unverified_event_still_updates_anchor :
    ((process_event (fun _ _ _ => true) [("M1", zeroKeyB64)] (fun _ _ => none)
        emptyWorld registeredEventEx).2.signature_verified = false) ∧
    ((process_event (fun _ _ _ => true) [("M1", zeroKeyB64)] (fun _ _ => none)
        emptyWorld registeredEventEx).1.anchors.map
      (fun a => (a.anchor_id, a.status)) = [("A1", AnchorStatus.ACTIVE)]) :=
  ⟨rfl, rfl⟩

/-- C10: a payload rejected by the router's checks — missing or unknown
`event_type`, or variant fields failing structural/range validation — is
rejected before signature verification is attempted and before any storage:
the world (anchors, stored events, and the count of `verify_signature`
invocations) is returned unchanged, with only the error set. -/
theorem rejected_payload_has_no_effect
    (ed : List Nat → List Nat → List UInt8 → Bool)
    (registry : List (String × String))
    (lw : StoredAnchorEvent → List (String × Jval) → Option String)
    (st : WorldState) (raw : List (String × Jval)) (err : IngestError)
    (h : ingestValidate raw = .error err) :
    ingest_event ed registry lw st raw =
      { world := st, error := some err, response := none } := by
  unfold ingest_event
  rw [h]

/-- A concrete raw payload whose `geo.lat_e7` is one past the inclusive
latitude bound, used in closed instances. -/
def badLatPayloadEx : List (String × Jval) :=
  [("event_type", Jval.jstr "ANCHOR_SEAL_ARMED"), ("anchor_id", Jval.jstr "A1"),
   ("timestamp", Jval.jnum 1), ("signature", Jval.jstr "sig"),
   ("seal_id", Jval.jstr "S-1"),
   ("geo", Jval.jobj [("lat_e7", Jval.jnum 900000001), ("lon_e7", Jval.jnum 0)])]

/-- C10 witness: the rejection theorem applied to a concrete
`ANCHOR_SEAL_ARMED` payload with an out-of-range latitude (900000001 > 9e8),
over an arbitrary concrete world. -/
theorem rejected_payload_has_no_effect_witness :
    ingestValidate badLatPayloadEx = .error .validationFailed ∧
    ingest_event (fun _ _ _ => true) [] (fun _ _ => none) emptyWorld badLatPayloadEx =
      { world := emptyWorld, error := some .validationFailed, response := none } :=
  ⟨rfl, rejected_payload_has_no_effect _ _ _ _ _ _ rfl⟩

end ProveniqAnchors

